import Mathlib

/-!
Verification of the NodoAI single-hop API gateway (src/NodoAI.py).

The embedding models the two core operations of class `NodoAI`:

* `ping_moduli`  — the health sweep over the registry (lines 25-60);
* `inoltra_richiesta` — the request forwarder (lines 62-161).

The registry `self.nodi` (a Python dict from module name to base URL) is
modelled as an association list `List (String × String)`; Python dict
semantics (unique keys, insertion order) appear as `Nodup` hypotheses
where the proofs need them.  The network is modelled by an oracle: for
`ping_moduli` a function from the pinged URL to a `PingOutcome`, for
`inoltra_richiesta` the `TransportOutcome` that the single
`requests.request` call would produce.  Besides its result dictionary
(`Json`), the embedded forwarder also returns the outbound request it
issued, as an `Option OutboundRequest` (`none` when no network call is
made), so that claims about payload placement, headers, URL and
"no network call" are statable.
-/

namespace NodoAI

/-- JSON-like values: the shape of Python dicts/values that
`inoltra_richiesta` returns and that remote modules produce. -/
inductive Json where
  | null
  | bool (b : Bool)
  | num (n : Int)
  | str (s : String)
  | arr (elems : List Json)
  | obj (fields : List (String × Json))
deriving Repr

/-- Field lookup in a JSON object (Python `d["key"]` / key membership). -/
def Json.lookup (j : Json) (key : String) : Option Json :=
  match j with
  | .obj fields => List.lookup key fields
  | _ => none

/-- Python `s.rstrip('/')`: remove ALL trailing slash characters. -/
def rstripSlash (s : String) : String :=
  ⟨(s.data.reverse.dropWhile (fun c => c == '/')).reverse⟩

/-- Python `s.lstrip('/')`: remove ALL leading slash characters. -/
def lstripSlash (s : String) : String :=
  ⟨s.data.dropWhile (fun c => c == '/')⟩

/-- Python `method.upper()`: upper-case the string character by
character (structural, so that it evaluates in the kernel). -/
def pyUpper (s : String) : String :=
  ⟨s.data.map Char.toUpper⟩

/-- Line 84: `full_url = f"{base_url.rstrip('/')}/{endpoint.lstrip('/')}"`. -/
def fullUrl (base_url endpoint : String) : String :=
  rstripSlash base_url ++ "/" ++ lstripSlash endpoint

/-- Python list repr of the module names, as interpolated into the
404 message (`list(self.nodi.keys())`). -/
def pyStrListRepr (xs : List String) : String :=
  "[" ++ String.intercalate ", " (xs.map (fun s => "\x27" ++ s ++ "\x27")) ++ "]"

/-- The outcome of a `requests.get` issued by `ping_moduli` for one module:
either a response with a status code, or one of the exception classes
caught at lines 45-58. -/
inductive PingOutcome where
  | response (status : Nat)
  | connectionError
  | timeout
  | requestException (msg : String)
  | unexpectedException (msg : String)
deriving DecidableEq, Repr

/-- Lines 39-58: classify one module's ping outcome into the boolean
stored in `stati`; only HTTP status exactly 200 yields `true`. -/
def pingClassify (o : PingOutcome) : Bool :=
  match o with
  | .response status => status == 200
  | _ => false

/-- Python dict assignment `d[k] = v`: update in place when the key is
present, append otherwise (insertion order preserved). -/
def dictInsert (d : List (String × Bool)) (k : String) (v : Bool) :
    List (String × Bool) :=
  if d.any (fun p => p.1 == k) then
    d.map (fun p => if p.1 == k then (p.1, v) else p)
  else
    d ++ [(k, v)]

/-- Lines 25-60: `ping_moduli`.  Iterates the registry, pings each base
URL with its trailing slashes stripped (line 38), and records the
classified outcome in `stati`.  The `net` oracle gives the outcome of
the GET issued to each (stripped) URL; every exception class is caught
inside the loop body, so the fold is total. -/
def ping_moduli (nodi : List (String × String)) (net : String → PingOutcome) :
    List (String × Bool) :=
  nodi.foldl
    (fun stati p => dictInsert stati p.1 (pingClassify (net (rstripSlash p.2))))
    []

/-- The response object of a completed HTTP exchange, as
`inoltra_richiesta` consumes it: `status_code`, raw `text`, and the
result of `.json()` (`none` models a `json.JSONDecodeError`). -/
structure HttpResponse where
  status_code : Nat
  text : String
  jsonBody : Option Json
deriving Repr

/-- The outcome of the single `requests.request` call at lines 95-102:
a response, or one of the exception classes caught at lines 132-161. -/
inductive TransportOutcome where
  | response (resp : HttpResponse)
  | connectionError
  | timeout
  | requestException (msg : String)
  | unexpectedException (msg : String)
deriving Repr

/-- The outbound HTTP request assembled by `inoltra_richiesta` and handed
to `requests.request` (lines 95-102): upper-cased method, composed URL,
optional JSON body, optional query parameters, headers, timeout. -/
structure OutboundRequest where
  method : String
  url : String
  jsonBody : Option (List (String × Json))
  params : Option (List (String × Json))
  headers : List (String × String)
  timeout : Nat
deriving Repr

/-- Lines 87-89: copy the caller headers (empty dict when `None`) and add
`Content-Type: application/json` when the method carries a body and the
key is absent. -/
def contentTypeHeaders (method : String)
    (headers : Option (List (String × String))) : List (String × String) :=
  if pyUpper method ∈ ["POST", "PUT", "PATCH"]
      ∧ (headers.getD []).any (fun p => p.1 == "Content-Type") = false then
    headers.getD [] ++ [("Content-Type", "application/json")]
  else
    headers.getD []

/-- Lines 95-102: the argument tuple of the `requests.request` call.
The JSON body is attached only for POST/PUT/PATCH, the query parameters
only for GET, and the fixed timeout is 15. -/
def buildRequest (base_url endpoint : String) (payload : List (String × Json))
    (method : String) (headers : Option (List (String × String))) :
    OutboundRequest :=
  ⟨pyUpper method,
   fullUrl base_url endpoint,
   if pyUpper method ∈ ["POST", "PUT", "PATCH"] then some payload else none,
   if pyUpper method = "GET" then some payload else none,
   contentTypeHeaders method headers,
   15⟩

/-- Lines 79-81: the 404 message (module names rendered as a Python list). -/
def notFoundMsg (nodi : List (String × String)) (modulo : String) : String :=
  "Modulo \x27" ++ modulo ++ "\x27 non trovato o non configurato. " ++
    "Moduli disponibili: " ++ pyStrListRepr (nodi.map Prod.fst)

/-- Line 81: the 404 error dictionary. -/
def notFoundResult (nodi : List (String × String)) (modulo : String) : Json :=
  .obj [("success", .bool false),
        ("errore", .str (notFoundMsg nodi modulo)),
        ("status_code", .num 404)]

/-- `requests.Response.__bool__` is `self.ok`, i.e. status < 400 (no
`HTTPError` pending).  Line 126 tests `if e.response` with this truthiness. -/
def responseOk (status : Nat) : Bool :=
  if 400 ≤ status ∧ status < 600 then false else true

/-- Lines 116-130: the error dictionary for a remote 4xx/5xx response.
Build order is `success`, `errore`, then `details`, then `status_code`.
Note line 126 tests the truthiness of `e.response` (which is `False` for
any status ≥ 400), so `details` is `None` on this path. -/
def httpErrorResult (modulo : String) (resp : HttpResponse) : Json :=
  .obj [("success", .bool false),
        ("errore", .str ("Errore HTTP dal modulo \x27" ++ modulo ++ "\x27: "
          ++ toString resp.status_code)),
        ("details",
          if responseOk resp.status_code then
            match resp.jsonBody with
            | some j => j
            | none => .str resp.text
          else .null),
        ("status_code", .num resp.status_code)]

/-- Lines 107-114: the 502 error dictionary for a successful status with
a body that fails JSON decoding; `details` is the raw `response.text`. -/
def invalidJsonResult (modulo raw : String) : Json :=
  .obj [("success", .bool false),
        ("errore", .str ("Risposta JSON non valida dal modulo \x27"
          ++ modulo ++ "\x27.")),
        ("status_code", .num 502),
        ("details", .str raw)]

/-- Lines 132-138: the 503 error dictionary for a `ConnectionError`. -/
def connectionErrorResult (modulo : String) : Json :=
  .obj [("success", .bool false),
        ("errore", .str ("Errore di connessione al modulo \x27" ++ modulo
          ++ "\x27. Il modulo potrebbe essere offline o non raggiungibile.")),
        ("status_code", .num 503)]

/-- Lines 139-145: the 504 error dictionary for a `Timeout`. -/
def timeoutResult (modulo : String) : Json :=
  .obj [("success", .bool false),
        ("errore", .str ("Timeout durante l\x27inoltro della richiesta al "
          ++ "modulo \x27" ++ modulo ++ "\x27.")),
        ("status_code", .num 504)]

/-- Lines 146-153: the 500 error dictionary for any other `RequestException`. -/
def requestExceptionResult (modulo msg : String) : Json :=
  .obj [("success", .bool false),
        ("errore", .str ("Errore di richiesta generico durante l\x27inoltro "
          ++ "al modulo \x27" ++ modulo ++ "\x27: " ++ msg)),
        ("status_code", .num 500)]

/-- Lines 154-161: the 500 error dictionary for any unexpected exception. -/
def unexpectedErrorResult (msg : String) : Json :=
  .obj [("success", .bool false),
        ("errore", .str ("Errore interno imprevisto durante l\x27inoltro: "
          ++ msg)),
        ("status_code", .num 500)]

/-- Lines 62-161: `inoltra_richiesta`.  Resolve the module (line 77, with
Python truthiness: a missing key or an empty URL both yield the 404
result at line 81, with no network call), compose the URL, assemble
headers and request, then map the transport outcome through the
try/except ladder.  The second component is the outbound request that
was handed to `requests.request` (`none` when resolution failed before
any network call). -/
def inoltra_richiesta (nodi : List (String × String))
    (outcome : TransportOutcome) (modulo endpoint : String)
    (payload : List (String × Json)) (method : String)
    (headers : Option (List (String × String))) :
    Json × Option OutboundRequest :=
  match List.lookup modulo nodi with
  | none => (notFoundResult nodi modulo, none)
  | some base_url =>
    if base_url = "" then (notFoundResult nodi modulo, none)
    else
      let req := buildRequest base_url endpoint payload method headers
      match outcome with
      | .response resp =>
        if 400 ≤ resp.status_code ∧ resp.status_code < 600 then
          (httpErrorResult modulo resp, some req)
        else
          match resp.jsonBody with
          | some j => (j, some req)
          | none => (invalidJsonResult modulo resp.text, some req)
      | .connectionError => (connectionErrorResult modulo, some req)
      | .timeout => (timeoutResult modulo, some req)
      | .requestException msg => (requestExceptionResult modulo msg, some req)
      | .unexpectedException msg => (unexpectedErrorResult msg, some req)

/-- A concrete two-module network used to instantiate the health-sweep
theorems: the first module times out, the second answers 200. -/
def pingNetDemo (u : String) : PingOutcome :=
  if u = "http://a" then .timeout else .response 200

lemma dictInsert_fresh (d : List (String × Bool)) (k : String) (v : Bool)
    (h : d.any (fun p => p.1 == k) = false) :
    dictInsert d k v = d ++ [(k, v)] := by
  simp [dictInsert, h]

lemma ping_foldl_eq (net : String → PingOutcome)
    (nodi : List (String × String)) :
    ∀ acc : List (String × Bool),
      (nodi.map Prod.fst).Nodup →
      (∀ k, k ∈ nodi.map Prod.fst → acc.any (fun q => q.1 == k) = false) →
      nodi.foldl
          (fun stati p =>
            dictInsert stati p.1 (pingClassify (net (rstripSlash p.2)))) acc
        = acc ++ nodi.map (fun p => (p.1, pingClassify (net (rstripSlash p.2)))) := by
  induction nodi with
  | nil => intro acc _ _; simp
  | cons p rest ih =>
    intro acc hnd hfresh
    have hp : acc.any (fun q => q.1 == p.1) = false := hfresh p.1 (by simp)
    have hnd' : (rest.map Prod.fst).Nodup := by
      simp only [List.map_cons, List.nodup_cons] at hnd
      exact hnd.2
    have hp_not : p.1 ∉ rest.map Prod.fst := by
      simp only [List.map_cons, List.nodup_cons] at hnd
      exact hnd.1
    have hfresh' : ∀ k, k ∈ rest.map Prod.fst →
        (acc ++ [(p.1, pingClassify (net (rstripSlash p.2)))]).any
            (fun q => q.1 == k) = false := by
      intro k hk
      have h1 : acc.any (fun q => q.1 == k) = false :=
        hfresh k (by simp [hk])
      have h2 : (p.1 == k) = false := by
        simp only [beq_eq_false_iff_ne]
        intro he
        exact hp_not (he ▸ hk)
      simp [List.any_append, h1, h2]
    rw [List.foldl_cons, dictInsert_fresh _ _ _ hp, ih _ hnd' hfresh']
    simp

lemma ping_moduli_eq_map (nodi : List (String × String))
    (net : String → PingOutcome) (hnd : (nodi.map Prod.fst).Nodup) :
    ping_moduli nodi net
      = nodi.map (fun p => (p.1, pingClassify (net (rstripSlash p.2)))) := by
  have h := ping_foldl_eq net nodi [] hnd (fun k _ => rfl)
  simpa [ping_moduli] using h

lemma ping_lookup (nodi : List (String × String)) (net : String → PingOutcome)
    (nome : String) :
    List.lookup nome
        (nodi.map (fun p => (p.1, pingClassify (net (rstripSlash p.2)))))
      = (List.lookup nome nodi).map
          (fun u => pingClassify (net (rstripSlash u))) := by
  induction nodi with
  | nil => rfl
  | cons p rest ih =>
    obtain ⟨a, b⟩ := p
    by_cases hk : nome = a
    · simp [List.lookup, hk]
    · have hk' : (nome == a) = false := beq_eq_false_iff_ne.mpr hk
      simp [List.lookup, hk', ih]

lemma pingClassify_eq_true_iff (o : PingOutcome) :
    pingClassify o = true ↔ o = .response 200 := by
  cases o <;> simp [pingClassify]

/-- C5: in `ping_moduli`, a registered module's entry in the health report
is `true` exactly when the GET to its (slash-stripped) base URL returned
HTTP status exactly 200; every other status and every exception class
yields `false`. -/
theorem ping_health_strict (nodi : List (String × String))
    (net : String → PingOutcome) (nome url : String)
    (hnd : (nodi.map Prod.fst).Nodup)
    (hurl : List.lookup nome nodi = some url) :
    List.lookup nome (ping_moduli nodi net)
        = some (pingClassify (net (rstripSlash url)))
      ∧ ∀ o : PingOutcome, pingClassify o = true ↔ o = .response 200 := by
  constructor
  · rw [ping_moduli_eq_map nodi net hnd, ping_lookup, hurl]
    rfl
  · exact pingClassify_eq_true_iff

/-- Witness for C5 at a concrete registry and network. -/
theorem ping_health_strict_witness :
    List.lookup "a" (ping_moduli [("a", "http://a/")] (fun _ => .response 200))
        = some (pingClassify
            ((fun _ => PingOutcome.response 200) (rstripSlash "http://a/")))
      ∧ ∀ o : PingOutcome, pingClassify o = true ↔ o = .response 200 :=
  ping_health_strict [("a", "http://a/")] (fun _ => .response 200) "a"
    "http://a/" (by decide) rfl

/-- C8: the health sweep never aborts: under the dict invariant (distinct
module names) the report is exactly the pointwise classification of each
module's own ping outcome, so it has one entry per registered module and
module A's outcome (exception or not) cannot influence module B's entry. -/
theorem ping_sweep_isolated (nodi : List (String × String))
    (net : String → PingOutcome) (hnd : (nodi.map Prod.fst).Nodup) :
    ping_moduli nodi net
        = nodi.map (fun p => (p.1, pingClassify (net (rstripSlash p.2))))
      ∧ (ping_moduli nodi net).map Prod.fst = nodi.map Prod.fst := by
  have h := ping_moduli_eq_map nodi net hnd
  refine ⟨h, ?_⟩
  rw [h, List.map_map]
  rfl

/-- Witness for C8: module "alpha" times out, module "beta" answers 200;
the sweep still reports both, with "beta" reachable. -/
theorem ping_sweep_isolated_witness :
    ping_moduli [("alpha", "http://a"), ("beta", "http://b/")] pingNetDemo
        = [("alpha", "http://a"), ("beta", "http://b/")].map
            (fun p => (p.1, pingClassify (pingNetDemo (rstripSlash p.2))))
      ∧ (ping_moduli [("alpha", "http://a"), ("beta", "http://b/")]
            pingNetDemo).map Prod.fst
          = [("alpha", "http://a"), ("beta", "http://b/")].map Prod.fst :=
  ping_sweep_isolated [("alpha", "http://a"), ("beta", "http://b/")]
    pingNetDemo (by decide)

lemma inoltra_snd (nodi : List (String × String)) (outcome : TransportOutcome)
    (modulo endpoint : String) (payload : List (String × Json))
    (method : String) (headers : Option (List (String × String))) :
    (inoltra_richiesta nodi outcome modulo endpoint payload method headers).2
      = match List.lookup modulo nodi with
        | none => none
        | some b =>
          if b = "" then none
          else some (buildRequest b endpoint payload method headers) := by
  cases h : List.lookup modulo nodi with
  | none => simp [inoltra_richiesta, h]
  | some b =>
    by_cases hb : b = ""
    · simp [inoltra_richiesta, h, hb]
    · cases outcome with
      | response resp =>
        by_cases hc : 400 ≤ resp.status_code ∧ resp.status_code < 600
        · simp [inoltra_richiesta, h, hb, hc]
        · cases hj : resp.jsonBody <;>
            simp [inoltra_richiesta, h, hb, hc, hj]
      | connectionError => simp [inoltra_richiesta, h, hb]
      | timeout => simp [inoltra_richiesta, h, hb]
      | requestException msg => simp [inoltra_richiesta, h, hb]
      | unexpectedException msg => simp [inoltra_richiesta, h, hb]

lemma inoltra_fst_resolved (nodi : List (String × String))
    (outcome : TransportOutcome) (modulo endpoint : String)
    (payload : List (String × Json)) (method : String)
    (headers : Option (List (String × String))) (base_url : String)
    (hb : List.lookup modulo nodi = some base_url) (hne : base_url ≠ "") :
    (inoltra_richiesta nodi outcome modulo endpoint payload method headers).1
      = match outcome with
        | .response resp =>
          if 400 ≤ resp.status_code ∧ resp.status_code < 600 then
            httpErrorResult modulo resp
          else
            match resp.jsonBody with
            | some j => j
            | none => invalidJsonResult modulo resp.text
        | .connectionError => connectionErrorResult modulo
        | .timeout => timeoutResult modulo
        | .requestException msg => requestExceptionResult modulo msg
        | .unexpectedException msg => unexpectedErrorResult msg := by
  cases outcome with
  | response resp =>
    by_cases hc : 400 ≤ resp.status_code ∧ resp.status_code < 600
    · simp [inoltra_richiesta, hb, hne, hc]
    · cases hj : resp.jsonBody <;> simp [inoltra_richiesta, hb, hne, hc, hj]
  | connectionError => simp [inoltra_richiesta, hb, hne]
  | timeout => simp [inoltra_richiesta, hb, hne]
  | requestException msg => simp [inoltra_richiesta, hb, hne]
  | unexpectedException msg => simp [inoltra_richiesta, hb, hne]

/-- C3: for a module name absent from the registry, `inoltra_richiesta`
returns the 404 error result with `success = false`, and issues no
outbound network call. -/
theorem forward_unknown_module (nodi : List (String × String))
    (outcome : TransportOutcome) (modulo endpoint : String)
    (payload : List (String × Json)) (method : String)
    (headers : Option (List (String × String)))
    (h : List.lookup modulo nodi = none) :
    Json.lookup (inoltra_richiesta nodi outcome modulo endpoint payload
        method headers).1 "status_code" = some (.num 404)
      ∧ Json.lookup (inoltra_richiesta nodi outcome modulo endpoint payload
          method headers).1 "success" = some (.bool false)
      ∧ (inoltra_richiesta nodi outcome modulo endpoint payload
          method headers).2 = none := by
  have e : inoltra_richiesta nodi outcome modulo endpoint payload method
      headers = (notFoundResult nodi modulo, none) := by
    simp [inoltra_richiesta, h]
  rw [e]
  exact ⟨rfl, rfl, rfl⟩

/-- Witness for C3: an empty registry, module "missing". -/
theorem forward_unknown_module_witness :
    Json.lookup (inoltra_richiesta [] .connectionError "missing" "ping" []
        "GET" none).1 "status_code" = some (.num 404)
      ∧ Json.lookup (inoltra_richiesta [] .connectionError "missing" "ping" []
          "GET" none).1 "success" = some (.bool false)
      ∧ (inoltra_richiesta [] .connectionError "missing" "ping" []
          "GET" none).2 = none :=
  forward_unknown_module [] .connectionError "missing" "ping" [] "GET" none rfl

/-- C10: a module that is registered but whose stored base URL is the
empty string (the only falsy string) also gets the 404 result with no
network call: line 77-78 tests the truthiness of the resolved URL, not
key presence. -/
theorem forward_unconfigured_module (nodi : List (String × String))
    (outcome : TransportOutcome) (modulo endpoint : String)
    (payload : List (String × Json)) (method : String)
    (headers : Option (List (String × String)))
    (h : List.lookup modulo nodi = some "") :
    Json.lookup (inoltra_richiesta nodi outcome modulo endpoint payload
        method headers).1 "status_code" = some (.num 404)
      ∧ Json.lookup (inoltra_richiesta nodi outcome modulo endpoint payload
          method headers).1 "success" = some (.bool false)
      ∧ (inoltra_richiesta nodi outcome modulo endpoint payload
          method headers).2 = none := by
  have e : inoltra_richiesta nodi outcome modulo endpoint payload method
      headers = (notFoundResult nodi modulo, none) := by
    simp [inoltra_richiesta, h]
  rw [e]
  exact ⟨rfl, rfl, rfl⟩

/-- Witness for C10: module "m" registered with an empty base URL. -/
theorem forward_unconfigured_module_witness :
    Json.lookup (inoltra_richiesta [("m", "")] .connectionError "m" "ping" []
        "POST" none).1 "status_code" = some (.num 404)
      ∧ Json.lookup (inoltra_richiesta [("m", "")] .connectionError "m" "ping"
          [] "POST" none).1 "success" = some (.bool false)
      ∧ (inoltra_richiesta [("m", "")] .connectionError "m" "ping" []
          "POST" none).2 = none :=
  forward_unconfigured_module [("m", "")] .connectionError "m" "ping" []
    "POST" none rfl

/-- C1: once the module resolves, `inoltra_richiesta` is total over the
transport-failure taxonomy (the embedding is a total function: every
exception class of lines 132-161 is mapped to a result dictionary), and
the status codes are: connection refused 503, timeout 504, malformed
JSON body on a successful status 502, and a remote 500 is passed through
as 500. -/
theorem forward_error_totality (nodi : List (String × String))
    (modulo endpoint : String) (payload : List (String × Json))
    (method : String) (headers : Option (List (String × String)))
    (base_url : String) (hb : List.lookup modulo nodi = some base_url)
    (hne : base_url ≠ "") :
    Json.lookup (inoltra_richiesta nodi .connectionError modulo endpoint
        payload method headers).1 "status_code" = some (.num 503)
      ∧ Json.lookup (inoltra_richiesta nodi .timeout modulo endpoint payload
          method headers).1 "status_code" = some (.num 504)
      ∧ (∀ resp : HttpResponse,
          ¬(400 ≤ resp.status_code ∧ resp.status_code < 600) →
          resp.jsonBody = none →
          Json.lookup (inoltra_richiesta nodi (.response resp) modulo endpoint
            payload method headers).1 "status_code" = some (.num 502))
      ∧ (∀ resp : HttpResponse, resp.status_code = 500 →
          Json.lookup (inoltra_richiesta nodi (.response resp) modulo endpoint
            payload method headers).1 "status_code" = some (.num 500)) := by
  refine ⟨?_, ?_, ?_, ?_⟩
  · rw [inoltra_fst_resolved nodi _ modulo endpoint payload method headers
      base_url hb hne]
    rfl
  · rw [inoltra_fst_resolved nodi _ modulo endpoint payload method headers
      base_url hb hne]
    rfl
  · intro resp hc hj
    rw [inoltra_fst_resolved nodi _ modulo endpoint payload method headers
      base_url hb hne]
    simp only [if_neg hc, hj]
    rfl
  · intro resp h500
    rw [inoltra_fst_resolved nodi _ modulo endpoint payload method headers
      base_url hb hne]
    have hc : 400 ≤ resp.status_code ∧ resp.status_code < 600 := by omega
    show Json.lookup
        (if 400 ≤ resp.status_code ∧ resp.status_code < 600 then
          httpErrorResult modulo resp
        else
          match resp.jsonBody with
          | some j => j
          | none => invalidJsonResult modulo resp.text) "status_code"
      = some (.num 500)
    rw [if_pos hc]
    have e : Json.lookup (httpErrorResult modulo resp) "status_code"
        = some (.num resp.status_code) := rfl
    rw [e, h500]
    rfl

/-- Witness for C1: registry with one module, each failure class at a
concrete response. -/
theorem forward_error_totality_witness :
    Json.lookup (inoltra_richiesta [("echo", "http://x")] .connectionError
        "echo" "ping" [] "POST" none).1 "status_code" = some (.num 503)
      ∧ Json.lookup (inoltra_richiesta [("echo", "http://x")] .timeout "echo"
          "ping" [] "POST" none).1 "status_code" = some (.num 504)
      ∧ Json.lookup (inoltra_richiesta [("echo", "http://x")]
          (.response ⟨200, "not-json", none⟩) "echo" "ping" [] "POST"
          none).1 "status_code" = some (.num 502)
      ∧ Json.lookup (inoltra_richiesta [("echo", "http://x")]
          (.response ⟨500, "boom", none⟩) "echo" "ping" [] "POST"
          none).1 "status_code" = some (.num 500) := by
  have h := forward_error_totality [("echo", "http://x")] "echo" "ping" []
    "POST" none "http://x" rfl (by decide)
  exact ⟨h.1, h.2.1, h.2.2.1 ⟨200, "not-json", none⟩ (by decide) rfl,
    h.2.2.2 ⟨500, "boom", none⟩ rfl⟩

/-- C6: when `inoltra_richiesta` issues a request, the payload is attached
as query parameters (and never as a body) exactly for GET, as a JSON
body (and never as query parameters) exactly for POST/PUT/PATCH, and
not at all for any other method. -/
theorem forward_payload_placement (nodi : List (String × String))
    (outcome : TransportOutcome) (modulo endpoint : String)
    (payload : List (String × Json)) (method : String)
    (headers : Option (List (String × String))) (req : OutboundRequest)
    (h : (inoltra_richiesta nodi outcome modulo endpoint payload method
        headers).2 = some req) :
    (pyUpper method = "GET" → req.params = some payload ∧ req.jsonBody = none)
      ∧ (pyUpper method ∈ ["POST", "PUT", "PATCH"] →
          req.jsonBody = some payload ∧ req.params = none)
      ∧ (pyUpper method ≠ "GET" → pyUpper method ∉ ["POST", "PUT", "PATCH"] →
          req.jsonBody = none ∧ req.params = none) := by
  rw [inoltra_snd] at h
  cases hb : List.lookup modulo nodi with
  | none => rw [hb] at h; simp at h
  | some b =>
    rw [hb] at h
    by_cases hbe : b = ""
    · simp [hbe] at h
    · simp [hbe] at h
      subst h
      refine ⟨?_, ?_, ?_⟩
      · intro hg
        constructor
        · show (if pyUpper method = "GET" then some payload else none)
            = some payload
          rw [if_pos hg]
        · show (if pyUpper method ∈ ["POST", "PUT", "PATCH"] then some payload
            else none) = none
          rw [if_neg]
          rw [hg]
          decide
      · intro hp
        constructor
        · show (if pyUpper method ∈ ["POST", "PUT", "PATCH"] then some payload
            else none) = some payload
          rw [if_pos hp]
        · show (if pyUpper method = "GET" then some payload else none) = none
          rw [if_neg]
          simp only [List.mem_cons, List.not_mem_nil, or_false] at hp
          rcases hp with h1 | h1 | h1 <;> rw [h1] <;> decide
      · intro hg hp
        exact ⟨by show (if pyUpper method ∈ ["POST", "PUT", "PATCH"] then
            some payload else none) = none; rw [if_neg hp],
          by show (if pyUpper method = "GET" then some payload else none)
            = none; rw [if_neg hg]⟩

/-- Witness for C6 at a concrete GET call: the payload goes to the query
parameters and no body is attached. -/
theorem forward_payload_placement_witness :
    (pyUpper "GET" = "GET" →
        (OutboundRequest.mk "GET" "http://x/e" none
            (some [("q", Json.str "v")]) [] 15).params
            = some [("q", Json.str "v")]
          ∧ (OutboundRequest.mk "GET" "http://x/e" none
              (some [("q", Json.str "v")]) [] 15).jsonBody = none)
      ∧ (pyUpper "GET" ∈ ["POST", "PUT", "PATCH"] →
          (OutboundRequest.mk "GET" "http://x/e" none
              (some [("q", Json.str "v")]) [] 15).jsonBody
              = some [("q", Json.str "v")]
            ∧ (OutboundRequest.mk "GET" "http://x/e" none
                (some [("q", Json.str "v")]) [] 15).params = none)
      ∧ (pyUpper "GET" ≠ "GET" → pyUpper "GET" ∉ ["POST", "PUT", "PATCH"] →
          (OutboundRequest.mk "GET" "http://x/e" none
              (some [("q", Json.str "v")]) [] 15).jsonBody = none
            ∧ (OutboundRequest.mk "GET" "http://x/e" none
                (some [("q", Json.str "v")]) [] 15).params = none) :=
  forward_payload_placement [("m", "http://x")] .connectionError "m" "e"
    [("q", Json.str "v")] "GET" none
    (OutboundRequest.mk "GET" "http://x/e" none (some [("q", Json.str "v")])
      [] 15) rfl

/-- C9: for a body-carrying method (POST/PUT/PATCH), the outbound headers
are the caller-supplied ones with `Content-Type: application/json`
appended when no `Content-Type` key is present, and are passed through
unchanged when one is. -/
theorem forward_header_injection (nodi : List (String × String))
    (outcome : TransportOutcome) (modulo endpoint : String)
    (payload : List (String × Json)) (method : String)
    (headers : Option (List (String × String))) (req : OutboundRequest)
    (h : (inoltra_richiesta nodi outcome modulo endpoint payload method
        headers).2 = some req)
    (hm : pyUpper method ∈ ["POST", "PUT", "PATCH"]) :
    ((headers.getD []).any (fun p => p.1 == "Content-Type") = false →
        req.headers
          = headers.getD [] ++ [("Content-Type", "application/json")])
      ∧ ((headers.getD []).any (fun p => p.1 == "Content-Type") = true →
          req.headers = headers.getD []) := by
  rw [inoltra_snd] at h
  cases hb : List.lookup modulo nodi with
  | none => rw [hb] at h; simp at h
  | some b =>
    rw [hb] at h
    by_cases hbe : b = ""
    · simp [hbe] at h
    · simp [hbe] at h
      subst h
      constructor
      · intro hct
        show contentTypeHeaders method headers = _
        unfold contentTypeHeaders
        rw [if_pos ⟨hm, hct⟩]
      · intro hct
        show contentTypeHeaders method headers = _
        unfold contentTypeHeaders
        rw [if_neg]
        intro hcond
        rw [hcond.2] at hct
        exact Bool.false_ne_true hct

/-- Witness for C9: a POST with one caller header and no Content-Type;
the issued request carries the header plus the injected Content-Type. -/
theorem forward_header_injection_witness :
    (OutboundRequest.mk "POST" "http://x/e" (some []) none
        [("X-Trace", "1"), ("Content-Type", "application/json")] 15).headers
      = (some [("X-Trace", "1")] : Option (List (String × String))).getD []
        ++ [("Content-Type", "application/json")] :=
  (forward_header_injection [("m", "http://x")] .connectionError "m" "e" []
    "POST" (some [("X-Trace", "1")])
    (OutboundRequest.mk "POST" "http://x/e" (some []) none
      [("X-Trace", "1"), ("Content-Type", "application/json")] 15)
    rfl (by decide)).1 rfl

/-- The uniform shape of every error dictionary `inoltra_richiesta`
produces: `success = False`, a string field `errore`, an integer field
`status_code` (`details` is optional and not constrained here). -/
def isErrorShape (j : Json) : Prop :=
  Json.lookup j "success" = some (.bool false)
    ∧ (∃ s, Json.lookup j "errore" = some (.str s))
    ∧ (∃ n, Json.lookup j "status_code" = some (.num n))

lemma isErrorShape_notFound (nodi : List (String × String)) (modulo : String) :
    isErrorShape (notFoundResult nodi modulo) :=
  ⟨rfl, ⟨_, rfl⟩, ⟨_, rfl⟩⟩

lemma isErrorShape_httpError (modulo : String) (resp : HttpResponse) :
    isErrorShape (httpErrorResult modulo resp) :=
  ⟨rfl, ⟨_, rfl⟩, ⟨_, rfl⟩⟩

lemma isErrorShape_invalidJson (modulo raw : String) :
    isErrorShape (invalidJsonResult modulo raw) :=
  ⟨rfl, ⟨_, rfl⟩, ⟨_, rfl⟩⟩

lemma isErrorShape_connectionError (modulo : String) :
    isErrorShape (connectionErrorResult modulo) :=
  ⟨rfl, ⟨_, rfl⟩, ⟨_, rfl⟩⟩

lemma isErrorShape_timeout (modulo : String) :
    isErrorShape (timeoutResult modulo) :=
  ⟨rfl, ⟨_, rfl⟩, ⟨_, rfl⟩⟩

lemma isErrorShape_requestException (modulo msg : String) :
    isErrorShape (requestExceptionResult modulo msg) :=
  ⟨rfl, ⟨_, rfl⟩, ⟨_, rfl⟩⟩

lemma isErrorShape_unexpected (msg : String) :
    isErrorShape (unexpectedErrorResult msg) :=
  ⟨rfl, ⟨_, rfl⟩, ⟨_, rfl⟩⟩

/-- C4 (amended): for every input and every transport outcome, the result
of `inoltra_richiesta` is either the decoded remote body (success path)
or a dictionary of the uniform error shape — `success = False`, a string
field named `errore` (not `error`), and an integer `status_code`. -/
theorem forward_error_shape (nodi : List (String × String))
    (outcome : TransportOutcome) (modulo endpoint : String)
    (payload : List (String × Json)) (method : String)
    (headers : Option (List (String × String))) :
    (∃ resp j, outcome = .response resp
        ∧ ¬(400 ≤ resp.status_code ∧ resp.status_code < 600)
        ∧ resp.jsonBody = some j
        ∧ (inoltra_richiesta nodi outcome modulo endpoint payload method
            headers).1 = j)
      ∨ isErrorShape (inoltra_richiesta nodi outcome modulo endpoint payload
          method headers).1 := by
  cases hb : List.lookup modulo nodi with
  | none =>
    right
    have e : (inoltra_richiesta nodi outcome modulo endpoint payload method
        headers).1 = notFoundResult nodi modulo := by
      simp [inoltra_richiesta, hb]
    rw [e]
    exact isErrorShape_notFound nodi modulo
  | some b =>
    by_cases hbe : b = ""
    · right
      have e : (inoltra_richiesta nodi outcome modulo endpoint payload method
          headers).1 = notFoundResult nodi modulo := by
        simp [inoltra_richiesta, hb, hbe]
      rw [e]
      exact isErrorShape_notFound nodi modulo
    · have e := inoltra_fst_resolved nodi outcome modulo endpoint payload
        method headers b hb hbe
      cases outcome with
      | response resp =>
        by_cases hc : 400 ≤ resp.status_code ∧ resp.status_code < 600
        · right
          rw [e]
          simp only [if_pos hc]
          exact isErrorShape_httpError modulo resp
        · cases hj : resp.jsonBody with
          | some j =>
            left
            refine ⟨resp, j, rfl, hc, hj, ?_⟩
            rw [e]
            simp only [if_neg hc, hj]
          | none =>
            right
            rw [e]
            simp only [if_neg hc, hj]
            exact isErrorShape_invalidJson modulo resp.text
      | connectionError =>
        right
        rw [e]
        exact isErrorShape_connectionError modulo
      | timeout =>
        right
        rw [e]
        exact isErrorShape_timeout modulo
      | requestException msg =>
        right
        rw [e]
        exact isErrorShape_requestException modulo msg
      | unexpectedException msg =>
        right
        rw [e]
        exact isErrorShape_unexpected msg

/-- Counterexample to C4 as stated: the 404 error result carries its
message under the field name "errore", and has no field named "error"
at all (while `success` and `status_code` are as claimed). -/
theorem forward_error_field_counterexample :
    Json.lookup (inoltra_richiesta [] .connectionError "m" "e" [] "POST"
        none).1 "error" = none
      ∧ (Json.lookup (inoltra_richiesta [] .connectionError "m" "e" [] "POST"
          none).1 "errore").isSome = true
      ∧ Json.lookup (inoltra_richiesta [] .connectionError "m" "e" [] "POST"
          none).1 "success" = some (.bool false)
      ∧ Json.lookup (inoltra_richiesta [] .connectionError "m" "e" [] "POST"
          none).1 "status_code" = some (.num 404) :=
  ⟨rfl, rfl, rfl, rfl⟩

/-- C7 (amended): a successful status with a body that fails JSON
decoding yields the 502 error result whose `details` field is the FULL
raw response body (only the log line truncates; the returned dictionary
does not). -/
theorem invalid_json_full_details (nodi : List (String × String))
    (modulo endpoint : String) (payload : List (String × Json))
    (method : String) (headers : Option (List (String × String)))
    (base_url : String) (resp : HttpResponse)
    (hb : List.lookup modulo nodi = some base_url) (hne : base_url ≠ "")
    (hok : ¬(400 ≤ resp.status_code ∧ resp.status_code < 600))
    (hmal : resp.jsonBody = none) :
    Json.lookup (inoltra_richiesta nodi (.response resp) modulo endpoint
        payload method headers).1 "status_code" = some (.num 502)
      ∧ Json.lookup (inoltra_richiesta nodi (.response resp) modulo endpoint
          payload method headers).1 "details" = some (.str resp.text)
      ∧ Json.lookup (inoltra_richiesta nodi (.response resp) modulo endpoint
          payload method headers).1 "success" = some (.bool false) := by
  have e := inoltra_fst_resolved nodi (.response resp) modulo endpoint
    payload method headers base_url hb hne
  refine ⟨?_, ?_, ?_⟩ <;> rw [e] <;> simp only [if_neg hok, hmal] <;> rfl

/-- Witness for C7 (amended) at a concrete registry and response. -/
theorem invalid_json_full_details_witness :
    Json.lookup (inoltra_richiesta [("m", "http://x")]
        (.response ⟨200, "oops", none⟩) "m" "e" [] "POST" none).1
        "status_code" = some (.num 502)
      ∧ Json.lookup (inoltra_richiesta [("m", "http://x")]
          (.response ⟨200, "oops", none⟩) "m" "e" [] "POST" none).1
          "details" = some (.str (HttpResponse.mk 200 "oops" none).text)
      ∧ Json.lookup (inoltra_richiesta [("m", "http://x")]
          (.response ⟨200, "oops", none⟩) "m" "e" [] "POST" none).1
          "success" = some (.bool false) :=
  invalid_json_full_details [("m", "http://x")] "m" "e" [] "POST" none
    "http://x" ⟨200, "oops", none⟩ rfl (by decide) (by decide) rfl

set_option maxRecDepth 8192 in
/-- Counterexample to C7 as stated: for a 250-character body the
`details` field of the 502 result is the entire raw body, not any
truncated form of it. -/
theorem invalid_json_details_not_truncated :
    Json.lookup (inoltra_richiesta [("m", "http://x")]
        (.response ⟨200, String.mk (List.replicate 250 'a'), none⟩) "m" "e"
        [] "POST" none).1 "details"
        = some (.str (String.mk (List.replicate 250 'a')))
      ∧ (String.mk (List.replicate 250 'a')).length = 250
      ∧ Json.lookup (inoltra_richiesta [("m", "http://x")]
          (.response ⟨200, String.mk (List.replicate 250 'a'), none⟩) "m" "e"
          [] "POST" none).1 "status_code" = some (.num 502) :=
  ⟨rfl, rfl, rfl⟩

lemma dropWhile_slash_replicate (m : Nat) (l : List Char) :
    List.dropWhile (fun c => c == '/') (List.replicate m '/' ++ l)
      = List.dropWhile (fun c => c == '/') l := by
  induction m with
  | zero => rfl
  | succ n ih =>
    rw [List.replicate_succ, List.cons_append,
      List.dropWhile_cons_of_pos (by decide)]
    exact ih

lemma lstripSlash_slashes (m : Nat) (endpoint : String) :
    lstripSlash (String.mk (List.replicate m '/') ++ endpoint)
      = lstripSlash endpoint := by
  simp only [lstripSlash, String.data_append]
  rw [dropWhile_slash_replicate]

lemma rstripSlash_slashes (k : Nat) (base_url : String) :
    rstripSlash (base_url ++ String.mk (List.replicate k '/'))
      = rstripSlash base_url := by
  simp only [rstripSlash, String.data_append]
  rw [List.reverse_append, List.reverse_replicate,
    dropWhile_slash_replicate]

/-- C2 (amended): the URL composition of `inoltra_richiesta` strips ALL
trailing slashes from the base URL and ALL leading slashes from the
endpoint (Python `rstrip`/`lstrip` remove every matching character),
then joins with a single slash: appending any number of extra slashes to
either side of the seam never changes the composed URL, and in
particular base "http://x//" joined with "y" yields "http://x/y". -/
theorem url_composition_strips_all (base_url endpoint : String) (k m : Nat) :
    fullUrl (base_url ++ String.mk (List.replicate k '/'))
        (String.mk (List.replicate m '/') ++ endpoint)
        = fullUrl base_url endpoint
      ∧ fullUrl "http://x//" "y" = "http://x/y" := by
  constructor
  · unfold fullUrl
    rw [rstripSlash_slashes, lstripSlash_slashes]
  · rfl

/-- Counterexample to C2 as stated: with base "http://x//" and endpoint
"y" the issued request URL is "http://x/y" (both trailing slashes
removed), not the "http://x//y" the claim predicts. -/
theorem url_strip_one_counterexample :
    Option.map OutboundRequest.url
        (inoltra_richiesta [("m", "http://x//")] .connectionError "m" "y" []
          "POST" none).2
        = some "http://x/y"
      ∧ "http://x/y" ≠ "http://x//y" :=
  ⟨rfl, by decide⟩

end NodoAI
